import Mathlib

/-!
Shallow embedding of the move-analysis core of the analysis-chess repository:
the Stockfish engine session (`src/js/stockfishEngine.js`, `src/unnamed/part_004`),
the analysis orchestrator (`src/js/moveAnalyzer.js`, `src/unnamed/part_006`), and
the move classifier (`src/unnamed/part_006`, first revision, together with the
constants of `src/js/config.js`).

Machine numbers: all centipawn scores, thresholds and material values in the
source are integers (`parseInt`, integer constants), so they are embedded as `ℤ`.
`Math.exp` and `Math.log` appear only in the win-probability and accuracy
formulas; those are embedded over `ℝ` with `Real.exp` / `Real.log`.
`Math.round x` is embedded as `⌊x + 1/2⌋`, its value on every argument the
program can produce.  JavaScript strings are embedded as `List Char` where
their structure matters (cache keys) and as `String` where only equality does.
-/

/-! ## Basic data model -/

/-- Piece color, `'w'` / `'b'` in chess.js move and piece objects. -/
inductive PieceColor
| w
| b
deriving DecidableEq

/-- Piece type letters used by chess.js and `CONFIG.PIECE_VALUES`. -/
inductive PieceKind
| p
| n
| b
| r
| q
| k
deriving DecidableEq

/-- One occupant of a board square, as returned by `game.board()`. -/
structure ChessPiece where
ptype : PieceKind
pcolor : PieceColor
deriving DecidableEq

/-- The lowercase phase strings produced by `MoveAnalyzer.analyzePosition`. -/
inductive PosPhase
| opening
| middlegame
| endgame
deriving DecidableEq

/-- The uppercase phase keys produced by `MoveClassifier.detectGamePhase`,
used to select a threshold set in `CONFIG.CLASSIFICATION`. -/
inductive PhaseKey
| OPENING
| MIDDLEGAME
| ENDGAME
deriving DecidableEq

/-- The classification tiers returned by `MoveClassifier.classify`. -/
inductive Tier
| book
| brilliant
| best
| great
| good
| inaccuracy
| mistake
| blunder
deriving DecidableEq

/-- A move record as stored in `STATE.moveHistory` (chess.js move object);
only the fields the analyzed code reads are embedded. -/
structure MoveRecord where
fromSq : List Char
toSq : List Char
promotion : Option Char
color : PieceColor
captured : Option PieceKind
deriving DecidableEq

/-- One alternative line `{score, move}` as consumed by the classifier
(`prevAnalysis.alternatives`).  The source reads `alt.score || 0`; since the
engine parser always stores an integer score, `score` is embedded as `ℤ`
(on `ℤ` the JavaScript `|| 0` coalescing is the identity: it maps `0` to `0`
and leaves every other value unchanged). -/
structure AltLine where
score : ℤ
move : String
deriving DecidableEq

/-- The tactical-pattern summary produced by
`MoveClassifier.detectTacticalPatterns`; the classifier only reads its
`tacticalScore` field. -/
structure TacticalInfo where
tacticalScore : ℤ
deriving DecidableEq

/-- The position descriptor produced by `MoveAnalyzer.analyzePosition`
(`src/js/moveAnalyzer.js` lines 151-188). -/
structure PositionInfo where
phase : PosPhase
whitePieces : ℕ
blackPieces : ℕ
whiteMaterial : ℤ
blackMaterial : ℤ
materialBalance : ℤ
totalPieces : ℕ
isEndgame : Bool
isTactical : Bool
deriving DecidableEq

/-- The classification-ready record (`classificationData` / `moveData`)
assembled by the orchestrator and consumed by `MoveClassifier.classify`. -/
structure MoveData where
moveIndex : ℕ
cpLoss : ℤ
move : MoveRecord
alternatives : List AltLine
evalBefore : ℤ
evalAfter : ℤ
materialLoss : ℤ
wasBestMove : Bool
position : Option PositionInfo
tactical : Option TacticalInfo

/-- An analyzed-move record as aggregated by `calculateACPL` /
`countMoveTypes`; only the fields those functions read are embedded. -/
structure AnalyzedMove where
cpLoss : ℤ
classification : Option Tier
deriving DecidableEq

/-! ## Constants from `src/js/config.js` -/

namespace CONFIG

/-- `CONFIG.PIECE_VALUES` (config.js lines 81-88); the source reads
`CONFIG.PIECE_VALUES[piece.type] || 0`, a total lookup on the six letters. -/
def PIECE_VALUES : PieceKind → ℤ
| .p => 100
| .n => 305
| .b => 333
| .r => 563
| .q => 950
| .k => 0

/-- One named threshold set of `CONFIG.CLASSIFICATION`. -/
structure ThresholdSet where
BEST_THRESHOLD : ℤ
GREAT_THRESHOLD : ℤ
GOOD_THRESHOLD : ℤ
INACCURACY_THRESHOLD : ℤ
MISTAKE_THRESHOLD : ℤ
deriving DecidableEq

/-- `CONFIG.CLASSIFICATION.OPENING.BOOK_MOVES` (config.js line 29). -/
def OPENING_BOOK_MOVES : ℕ := 12

/-- `CONFIG.CLASSIFICATION.OPENING` (config.js lines 28-35). -/
def OPENING : ThresholdSet := ⟨12, 28, 55, 110, 210⟩

/-- `CONFIG.CLASSIFICATION.MIDDLEGAME` (config.js lines 38-44). -/
def MIDDLEGAME : ThresholdSet := ⟨10, 25, 50, 100, 200⟩

/-- `CONFIG.CLASSIFICATION.ENDGAME` (config.js lines 47-53). -/
def ENDGAME : ThresholdSet := ⟨8, 20, 40, 80, 150⟩

namespace BRILLIANT

/-- `CONFIG.CLASSIFICATION.BRILLIANT.MIN_SACRIFICE`. -/
def MIN_SACRIFICE : ℤ := 280

/-- `CONFIG.CLASSIFICATION.BRILLIANT.MIN_EVAL_GAIN`. -/
def MIN_EVAL_GAIN : ℤ := 60

/-- `CONFIG.CLASSIFICATION.BRILLIANT.UNIQUENESS_GAP`. -/
def UNIQUENESS_GAP : ℤ := 100

/-- `CONFIG.CLASSIFICATION.BRILLIANT.MIN_COMPLEXITY`. -/
def MIN_COMPLEXITY : ℤ := 40

/-- `CONFIG.CLASSIFICATION.BRILLIANT.MIN_EVAL_SWING`. -/
def MIN_EVAL_SWING : ℤ := 120

/-- `CONFIG.CLASSIFICATION.BRILLIANT.MAX_CP_LOSS` (config.js line 62). -/
def MAX_CP_LOSS : ℤ := -20

end BRILLIANT

namespace GREAT

/-- `CONFIG.CLASSIFICATION.GREAT.MAX_CP_LOSS`. -/
def MAX_CP_LOSS : ℤ := 25

/-- `CONFIG.CLASSIFICATION.GREAT.MIN_EVAL_GAIN`. -/
def MIN_EVAL_GAIN : ℤ := 40

/-- `CONFIG.CLASSIFICATION.GREAT.MIN_POSITION_SCORE`. -/
def MIN_POSITION_SCORE : ℤ := 200

end GREAT

namespace WIN_PROB_LOSS

/-- `CONFIG.CLASSIFICATION.WIN_PROB_LOSS.INACCURACY`. -/
def INACCURACY : ℝ := 8

/-- `CONFIG.CLASSIFICATION.WIN_PROB_LOSS.MISTAKE`. -/
def MISTAKE : ℝ := 15

end WIN_PROB_LOSS

namespace WIN_PROB

/-- `CONFIG.WIN_PROB.COEFFICIENT` (config.js line 103). -/
def COEFFICIENT : ℝ := 0.00368208

/-- `CONFIG.WIN_PROB.SCALING_FACTOR` (config.js line 104). -/
def SCALING_FACTOR : ℝ := 50

end WIN_PROB

end CONFIG

/-! ## Move Classifier (`src/unnamed/part_006`, first revision) -/

namespace MoveClassifier

/-- `MoveClassifier.centipawnsToWinProb` (part_006 lines 9-13):
`P(cp) = 50 + 50 * (2 / (1 + e^(-k*cp)) - 1)`. -/
noncomputable def centipawnsToWinProb (cp : ℝ) : ℝ :=
  CONFIG.WIN_PROB.SCALING_FACTOR +
    CONFIG.WIN_PROB.SCALING_FACTOR *
      (2 / (1 + Real.exp (-CONFIG.WIN_PROB.COEFFICIENT * cp)) - 1)

/-- `MoveClassifier.calculateWinProbLoss` (part_006 lines 16-18). -/
noncomputable def calculateWinProbLoss (cpBefore cpAfter : ℝ) : ℝ :=
  centipawnsToWinProb cpBefore - centipawnsToWinProb cpAfter

/-- `Math.max(...scores)` over a nonempty list. -/
def listMax (x : ℤ) (xs : List ℤ) : ℤ := xs.foldl max x

/-- `Math.min(...scores)` over a nonempty list. -/
def listMin (x : ℤ) (xs : List ℤ) : ℤ := xs.foldl min x

/-- The score-variance bonus of `MoveClassifier.calculateComplexity`
(part_006 lines 83-91), applied when `alternatives.length >= 2`. -/
def varianceBonus (alternatives : List AltLine) : ℤ :=
  match alternatives with
  | a :: b :: rest =>
      let scores := ((a :: b :: rest).map (fun alt => alt.score))
      let variance := listMax a.score (scores.tail) - listMin a.score (scores.tail)
      if 150 < variance then 30
      else if 80 < variance then 20
      else if 40 < variance then 10
      else 0
  | _ => 0

/-- `MoveClassifier.calculateComplexity` (part_006 lines 75-109).
The three accumulation stages mirror the source: alternative count and score
variance, tactical score, then position phase / tactical flag / material
balance.  The source guard `position.materialBalance && |...| < 100` is a
JavaScript truthiness test, so a balance of exactly `0` earns no bonus. -/
def calculateComplexity (position : Option PositionInfo)
    (alternatives : List AltLine) (tactical : Option TacticalInfo) : ℤ :=
  let c1 : ℤ :=
    if 0 < alternatives.length then
      min ((alternatives.length : ℤ) * 8) 40 + varianceBonus alternatives
    else 0
  let c2 : ℤ :=
    match tactical with
    | some t => if 0 < t.tacticalScore then c1 + min t.tacticalScore 35 else c1
    | none => c1
  let c3 : ℤ :=
    match position with
    | some p =>
        let cA := if p.phase = PosPhase.middlegame then c2 + 15 else c2
        let cB := if p.isTactical then cA + 20 else cA
        if p.materialBalance ≠ 0 ∧ |p.materialBalance| < 100 then cB + 10 else cB
    | none => c2
  min c3 100

/-- The mover-perspective evaluation gain computed inside `isBrilliant` and
`isGreatMove` (part_006 lines 131-133 and 215-217). -/
def evalGainOf (move : MoveRecord) (evalBefore evalAfter : ℤ) : ℤ :=
  if move.color = PieceColor.w then evalAfter - evalBefore else evalBefore - evalAfter

/-- Criterion 4 of `isBrilliant` (part_006 lines 140-148): with at least two
alternatives, fail when the gap between the top two scores is below
`UNIQUENESS_GAP`. -/
def uniquenessFails (alternatives : List AltLine) : Bool :=
  match alternatives with
  | a :: b :: _ => |a.score - b.score| < CONFIG.BRILLIANT.UNIQUENESS_GAP
  | _ => false

/-- `MoveClassifier.isBrilliant` (part_006 lines 112-175).  `complexity` is the
value `classify` computes with `calculateComplexity` and stores in the
enhanced record before calling `isBrilliant`. -/
def isBrilliant (d : MoveData) (complexity : ℤ) : Bool :=
  if d.materialLoss < CONFIG.BRILLIANT.MIN_SACRIFICE then false
  else if CONFIG.BRILLIANT.MAX_CP_LOSS < d.cpLoss then false
  else
    let evalGain := evalGainOf d.move d.evalBefore d.evalAfter
    if evalGain < CONFIG.BRILLIANT.MIN_EVAL_GAIN then false
    else if uniquenessFails d.alternatives then false
    else if complexity < CONFIG.BRILLIANT.MIN_COMPLEXITY then false
    else if |d.evalAfter - d.evalBefore| < CONFIG.BRILLIANT.MIN_EVAL_SWING then false
    else if 500 < |d.evalBefore| ∧ evalGain < 100 then false
    else true

/-- `MoveClassifier.getThresholdsForPhase` (part_006 lines 241-244); the phase
key is always one of the three named sets, with `MIDDLEGAME` as fallback. -/
def getThresholdsForPhase (phase : PhaseKey) : CONFIG.ThresholdSet :=
  match phase with
  | .OPENING => CONFIG.OPENING
  | .MIDDLEGAME => CONFIG.MIDDLEGAME
  | .ENDGAME => CONFIG.ENDGAME

/-- `MoveClassifier.isBestMove` (part_006 lines 178-204).  The source has two
early returns after the threshold tests: inside the close-alternatives branch
it returns `cpLoss <= BEST_THRESHOLD + 5` directly (true or false), and only
when that branch is not entered does it fall through to the decisive-position
leniency test. -/
def isBestMove (d : MoveData) (phase : PhaseKey) : Bool :=
  let thresholds := getThresholdsForPhase phase
  if d.wasBestMove then true
  else if d.cpLoss ≤ thresholds.BEST_THRESHOLD then true
  else
    let decisive : Bool :=
      if 400 < |d.evalBefore| then decide (d.cpLoss ≤ thresholds.BEST_THRESHOLD + 5)
      else false
    match d.alternatives with
    | a :: b :: _ =>
        if |a.score - b.score| < 12 then decide (d.cpLoss ≤ thresholds.BEST_THRESHOLD + 5)
        else decisive
    | _ => decisive

/-- The tactical clause of `isGreatMove` (part_006 lines 231-234);
`tactical && tactical.tacticalScore > 40 && cpLoss < GREAT_THRESHOLD`. -/
def tacticalGreat (tactical : Option TacticalInfo)
    (thresholds : CONFIG.ThresholdSet) (cpLoss : ℤ) : Bool :=
  match tactical with
  | some t => decide (40 < t.tacticalScore ∧ cpLoss < thresholds.GREAT_THRESHOLD)
  | none => false

/-- `MoveClassifier.isGreatMove` (part_006 lines 207-238). -/
def isGreatMove (d : MoveData) (phase : PhaseKey) : Bool :=
  let thresholds := getThresholdsForPhase phase
  if CONFIG.GREAT.MAX_CP_LOSS < d.cpLoss then false
  else
    let evalGain := evalGainOf d.move d.evalBefore d.evalAfter
    if CONFIG.GREAT.MIN_EVAL_GAIN < evalGain ∧ d.cpLoss < 20 then true
    else if CONFIG.GREAT.MIN_POSITION_SCORE < |d.evalBefore| ∧
        d.cpLoss < thresholds.GREAT_THRESHOLD then true
    else if tacticalGreat d.tactical thresholds d.cpLoss then true
    else decide (thresholds.BEST_THRESHOLD ≤ d.cpLoss ∧ d.cpLoss ≤ thresholds.GREAT_THRESHOLD)

/-- `MoveClassifier.detectGamePhase` (part_006 lines 247-259). -/
def detectGamePhase (moveIndex : ℕ) (position : Option PositionInfo) : PhaseKey :=
  if moveIndex < CONFIG.OPENING_BOOK_MOVES then PhaseKey.OPENING
  else
    match position with
    | some p =>
        if p.phase = PosPhase.endgame then PhaseKey.ENDGAME
        else if p.phase = PosPhase.opening then PhaseKey.OPENING
        else PhaseKey.MIDDLEGAME
    | none => PhaseKey.MIDDLEGAME

/-- `MoveClassifier.classify` (part_006 lines 262-325): book, brilliant, best,
great, good, inaccuracy, mistake, blunder, first match wins. -/
noncomputable def classify (d : MoveData) : Tier :=
  let phase := detectGamePhase d.moveIndex d.position
  let thresholds := getThresholdsForPhase phase
  let complexity := calculateComplexity d.position d.alternatives d.tactical
  let winProbLoss := calculateWinProbLoss (d.evalBefore : ℝ) (d.evalAfter : ℝ)
  if phase = PhaseKey.OPENING ∧ d.moveIndex < 10 ∧ |d.cpLoss| < 25 then Tier.book
  else if isBrilliant d complexity then Tier.brilliant
  else if isBestMove d phase then Tier.best
  else if isGreatMove d phase then Tier.great
  else if d.cpLoss ≤ thresholds.GOOD_THRESHOLD then Tier.good
  else if d.cpLoss ≤ thresholds.INACCURACY_THRESHOLD ∨
      winProbLoss < CONFIG.WIN_PROB_LOSS.INACCURACY then Tier.inaccuracy
  else if d.cpLoss ≤ thresholds.MISTAKE_THRESHOLD ∨
      winProbLoss < CONFIG.WIN_PROB_LOSS.MISTAKE then Tier.mistake
  else Tier.blunder

end MoveClassifier

namespace MoveClassifier

/-- The JavaScript `Math.round` on the real result of a division or product:
round half toward positive infinity. -/
noncomputable def jsRound (x : ℝ) : ℤ := ⌊x + 1/2⌋

/-- `Math.round` on a rational value (used where the source divides two
integers); same rounding rule as `jsRound`. -/
def jsRoundQ (q : ℚ) : ℤ := ⌊q + 1/2⌋

/-- `MoveClassifier.calculateAccuracy` (part_006 lines 364-372):
`acpl = 0` short-circuits to `100`; otherwise the Chess.com formula is
rounded to one decimal and clamped into `[0, 100]`
(`Math.max(0, Math.min(100, Math.round(accuracy * 10) / 10))`). -/
noncomputable def calculateAccuracy (acpl : ℝ) : ℝ :=
  if acpl = 0 then 100
  else
    let x := acpl
    let accuracy := 103.1668 - 3.9114 * Real.log (0.000196 * x * x + 0.0388 * x + 1)
    max 0 (min 100 ((jsRound (accuracy * 10) : ℝ) / 10))

/-- The filter `moves.filter((m, idx) => STATE.moveHistory[idx] &&
STATE.moveHistory[idx].color === color)` shared by `calculateACPL` and
`countMoveTypes` (part_006 lines 348-350 and 376-378); `history` is the
embedded `STATE.moveHistory`. -/
def colorMoves (moves : List AnalyzedMove) (history : List MoveRecord)
    (color : PieceColor) : List AnalyzedMove :=
  ((moves.enum).filter (fun p =>
      match history.get? p.1 with
      | some h => decide (h.color = color)
      | none => false)).map (fun p => p.2)

/-- `MoveClassifier.calculateACPL` (part_006 lines 347-361): the per-move
losses `Math.max(0, m.cpLoss || 0)` are filtered to the positive ones, and
their sum is divided by the number of the player's moves and rounded. -/
def calculateACPL (moves : List AnalyzedMove) (history : List MoveRecord)
    (color : PieceColor) : ℤ :=
  let cm := colorMoves moves history color
  if cm.length = 0 then 0
  else
    let losses : List ℤ := (cm.map (fun m => max 0 m.cpLoss)).filter (fun loss => decide (0 < loss))
    if losses.length = 0 then 0
    else jsRoundQ ((losses.sum : ℚ) / (cm.length : ℚ))

/-- The per-tier tally object of `MoveClassifier.countMoveTypes`
(part_006 lines 380-383). -/
structure TierCounts where
brilliant : ℕ
best : ℕ
great : ℕ
good : ℕ
book : ℕ
inaccuracy : ℕ
mistake : ℕ
blunder : ℕ
deriving DecidableEq

/-- The all-zero initial tally. -/
def initCounts : TierCounts := ⟨0, 0, 0, 0, 0, 0, 0, 0⟩

/-- `counts[m.classification]++` for one classified move. -/
def bumpCount (c : TierCounts) : Tier → TierCounts
| .brilliant => { c with brilliant := c.brilliant + 1 }
| .best => { c with best := c.best + 1 }
| .great => { c with great := c.great + 1 }
| .good => { c with good := c.good + 1 }
| .book => { c with book := c.book + 1 }
| .inaccuracy => { c with inaccuracy := c.inaccuracy + 1 }
| .mistake => { c with mistake := c.mistake + 1 }
| .blunder => { c with blunder := c.blunder + 1 }

/-- `MoveClassifier.countMoveTypes` (part_006 lines 375-392): tally the
classifications of the player's moves; a move with no classification (or one
outside the eight keys, impossible for `Tier`) is skipped. -/
def countMoveTypes (moves : List AnalyzedMove) (history : List MoveRecord)
    (color : PieceColor) : TierCounts :=
  (colorMoves moves history color).foldl
    (fun c m =>
      match m.classification with
      | some t => bumpCount c t
      | none => c)
    initCounts

end MoveClassifier

/-! ## Analysis Orchestrator (`src/js/moveAnalyzer.js`, `src/unnamed/part_006`) -/

namespace MoveAnalyzer

/-- The running counters of the piece/material loop of `analyzePosition`. -/
structure BoardTally where
whitePieces : ℕ
blackPieces : ℕ
whiteMaterial : ℤ
blackMaterial : ℤ
deriving DecidableEq

/-- The nested `for i / for j` loop over `game.board()` of `analyzePosition`
(`src/js/moveAnalyzer.js` lines 156-170): count pieces and material per
color using `CONFIG.PIECE_VALUES[piece.type] || 0`. -/
def tallyBoard (board : List (List (Option ChessPiece))) : BoardTally :=
  board.foldl
    (fun acc row =>
      row.foldl
        (fun acc cell =>
          match cell with
          | some piece =>
              let value := CONFIG.PIECE_VALUES piece.ptype
              if piece.pcolor = PieceColor.w then
                { acc with whitePieces := acc.whitePieces + 1,
                           whiteMaterial := acc.whiteMaterial + value }
              else
                { acc with blackPieces := acc.blackPieces + 1,
                           blackMaterial := acc.blackMaterial + value }
          | none => acc)
        acc)
    ⟨0, 0, 0, 0⟩

/-- `MoveAnalyzer.analyzePosition` (`src/js/moveAnalyzer.js` lines 151-188;
the part_006 revision, lines 686-744, computes the same `phase` from the same
piece count and move index).  `inCheck` embeds the `game.in_check()` call on
the post-move position. -/
def analyzePosition (board : List (List (Option ChessPiece))) (inCheck : Bool)
    (moveIndex : ℕ) : PositionInfo :=
  let t := tallyBoard board
  let totalPieces := t.whitePieces + t.blackPieces
  let phase :=
    if totalPieces ≤ 10 then PosPhase.endgame
    else if moveIndex < 12 then PosPhase.opening
    else PosPhase.middlegame
  { phase := phase
    whitePieces := t.whitePieces
    blackPieces := t.blackPieces
    whiteMaterial := t.whiteMaterial
    blackMaterial := t.blackMaterial
    materialBalance := t.whiteMaterial - t.blackMaterial
    totalPieces := totalPieces
    isEndgame := decide (phase = PosPhase.endgame)
    isTactical := inCheck || decide (totalPieces < 20) }

/-- The perspective correction of `analyzeSingleMove`
(`src/js/moveAnalyzer.js` lines 74-81, identical in part_006 lines 508-515):
`evalBefore = prevAnalysis.score`, `evalAfter = -currAnalysis.score`, and both
are negated when the mover is black. -/
def perspectiveEvals (prevScore currScore : ℤ) (color : PieceColor) : ℤ × ℤ :=
  let evalBefore := prevScore
  let evalAfter := -currScore
  if color = PieceColor.b then (-evalBefore, -evalAfter) else (evalBefore, evalAfter)

/-- `const cpLoss = Math.max(0, evalBefore - evalAfter)`
(`src/js/moveAnalyzer.js` line 84, part_006 line 518). -/
def cpLossOf (prevScore currScore : ℤ) (color : PieceColor) : ℤ :=
  let e := perspectiveEvals prevScore currScore color
  max 0 (e.1 - e.2)

/-- The cache key of the part_006 revision (line 435):
`` `${prevFen}_${move.from}${move.to}${move.promotion || ''}` ``. -/
def cacheKey (prevFen : List Char) (move : MoveRecord) : List Char :=
  prevFen ++ '_' :: (move.fromSq ++ move.toSq ++ move.promotion.elim [] (fun c => [c]))

/-- The cache key of `src/js/moveAnalyzer.js` (line 44):
`` `${prevFen}_${move.from}${move.to}` `` — the promotion piece is omitted. -/
def cacheKeySequential (prevFen : List Char) (move : MoveRecord) : List Char :=
  prevFen ++ '_' :: (move.fromSq ++ move.toSq)

end MoveAnalyzer

/-! ## Engine Session (`src/unnamed/part_004`, `src/js/stockfishEngine.js`) -/

namespace StockfishEngine

/-- One entry of `pvData` in `analyzeMultiPV` (part_004 lines 92-93):
created as `{score: 0, move: null, pv: [], depth: 0}`, so `score` is always an
integer while `move` may still be `null` when no `pv` token was parsed. -/
structure PVData where
score : ℤ
move : Option String
deriving DecidableEq

/-- One entry of `pvResults` in `runAnalysis` (`src/js/stockfishEngine.js`
line 124): created as `{}`, so both `score` and `move` may be absent. -/
structure PVResult where
score : Option ℤ
move : Option String
deriving DecidableEq

/-- Stable insertion into a list already in non-increasing score order; the
building block of the embedding of `Array.prototype.sort` with the comparator
`(a, b) => b.score - a.score` (part_004 line 140).  The JavaScript sort is
stable, so an element is placed before the first strictly lower score and
after equal scores. -/
def insertPV (x : PVData) : List PVData → List PVData
| [] => [x]
| y :: ys => if y.score ≤ x.score then x :: y :: ys else y :: insertPV x ys

/-- The embedded `sort((a, b) => b.score - a.score)`: a stable sort by
non-increasing score. -/
def sortByScoreDesc (l : List PVData) : List PVData := l.foldr insertPV []

/-- The `sortedPVs` assembly of `analyzeMultiPV` (part_004 lines 137-140):
keep the PV lines with a parsed move (`score` is always defined, see
`PVData`), sorted by descending score. -/
def sortedPVsOf (pvData : List PVData) : List PVData :=
  sortByScoreDesc (pvData.filter (fun pv => pv.move.isSome))

/-- The `alternatives` of the `AnalysisResult` produced by `analyzeMultiPV`
(part_004 lines 152-158): all sorted PV lines except the first
(`sortedPVs.slice(1)`; when `sortedPVs` is empty the initial `[]` is kept,
and `List.tail [] = []` agrees). -/
def multiPVAlternatives (pvData : List PVData) : List PVData :=
  (sortedPVsOf pvData).tail

/-- The `alternatives` assembly of `runAnalysis`
(`src/js/stockfishEngine.js` lines 162-164): the `pvResults` entries (in PV
index order) with a move and a score — no sorting and no removal of the
primary line. -/
def runAnalysisAlternatives (pvResults : List PVResult) : List PVResult :=
  pvResults.filter (fun alt => alt.move.isSome && alt.score.isSome)

/-- The mutable session state of `StockfishEngine`
(`src/js/stockfishEngine.js` lines 5-9) together with the bookkeeping that
identifies requests: requests are numbered in arrival order (`nextId`),
`queue` holds the pending ids in order, `inFlight` the id taken by
`processQueue` (at most one), `completed` the ids whose promise has been
resolved or rejected, in completion order. -/
structure EngineState where
hasWorker : Bool
ready : Bool
busy : Bool
queue : List ℕ
inFlight : List ℕ
completed : List ℕ
nextId : ℕ
deriving DecidableEq

/-- The state before `init()`: no worker, not ready, not busy, empty queue. -/
def initEngineState : EngineState := ⟨false, false, false, [], [], [], 0⟩

/-- The synchronous part of `StockfishEngine.analyze`
(`src/js/stockfishEngine.js` lines 50-60): `if (!this.worker || !this.ready)
return reject('Engine not ready')`, otherwise push the request onto the
queue.  The returned pair is the promise outcome visible to the caller at
that point (`error` = immediate rejection) and the session state after the
call. -/
def analyze (s : EngineState) : Except String Unit × EngineState :=
  if s.hasWorker = false ∨ s.ready = false then (Except.error "Engine not ready", s)
  else (Except.ok (), { s with queue := s.queue ++ [s.nextId], nextId := s.nextId + 1 })

/-- The event-level transitions of the engine session, one constructor per
atomic (synchronous, no `await` inside) code section:
`workerUp` = worker creation in `init()`; `readyOk` = the `readyok` handler
setting `ready`; `enqueue` = a successful `analyze` call; `start` = the
dequeue in `processQueue` (guarded by `!busy`, takes the queue head, sets
`busy` before the first suspension); `complete` = resolution or rejection of
the in-flight request followed by `busy = false`
(`src/js/stockfishEngine.js` lines 62-81). -/
inductive EngineStep : EngineState → EngineState → Prop
| workerUp (s : EngineState) :
    EngineStep s { s with hasWorker := true }
| readyOk (s : EngineState) :
    EngineStep s { s with ready := true }
| enqueue (s : EngineState) (h : (analyze s).1 = Except.ok ()) :
    EngineStep s (analyze s).2
| start (s : EngineState) (r : ℕ) (rest : List ℕ)
    (hb : s.busy = false) (hq : s.queue = r :: rest) :
    EngineStep s { s with busy := true, queue := rest, inFlight := [r] }
| complete (s : EngineState) (r : ℕ) (hf : s.inFlight = [r]) :
    EngineStep s { s with busy := false, inFlight := [], completed := s.completed ++ [r] }

/-- States the session can reach from `initEngineState`. -/
def ReachableEngine (s : EngineState) : Prop :=
  Relation.ReflTransGen EngineStep initEngineState s

/-- The session invariant: the busy flag is set exactly while a request is in
flight, at most one request is in flight, and the completed, in-flight and
queued request ids — in that order — are exactly the ids handed out so far,
in arrival order. -/
def EngineInv (s : EngineState) : Prop :=
  (s.busy = false ↔ s.inFlight = []) ∧
  s.inFlight.length ≤ 1 ∧
  s.completed ++ s.inFlight ++ s.queue = List.range s.nextId

end StockfishEngine

/-! ## Helper lemmas -/

namespace StockfishEngine

lemma engineInv_init : EngineInv initEngineState := by
  refine ⟨by simp [initEngineState], by simp [initEngineState], by simp [initEngineState]⟩

lemma engineInv_step {s s' : EngineState} (hinv : EngineInv s) (hstep : EngineStep s s') :
    EngineInv s' := by
  obtain ⟨hbusy, hlen, horder⟩ := hinv
  cases hstep with
  | workerUp =>
      exact ⟨hbusy, hlen, horder⟩
  | readyOk =>
      exact ⟨hbusy, hlen, horder⟩
  | enqueue h =>
      by_cases hc : s.hasWorker = false ∨ s.ready = false
      · unfold analyze at h
        rw [if_pos hc] at h
        exact absurd h (by simp)
      · unfold analyze
        rw [if_neg hc]
        refine ⟨hbusy, hlen, ?_⟩
        simp only [List.range_succ, ← horder]
        simp [List.append_assoc]
  | start r rest hb hq =>
      have hf : s.inFlight = [] := hbusy.mp hb
      refine ⟨by simp, by simp, ?_⟩
      rw [hf, hq] at horder
      simpa using horder
  | complete r hf =>
      refine ⟨by simp, by simp, ?_⟩
      rw [hf] at horder
      simpa using horder

lemma engineInv_reachable {s : EngineState} (h : ReachableEngine s) : EngineInv s := by
  induction h with
  | refl => exact engineInv_init
  | tail _ hstep ih => exact engineInv_step ih hstep

lemma range_decomp_head {comp rest : List ℕ} {r n : ℕ}
    (h : comp ++ r :: rest = List.range n) : ∀ a, a < r → a ∈ comp := by
  intro a ha
  have hlen : comp.length < n := by
    have := congrArg List.length h
    simp at this
    omega
  have hget : (comp ++ r :: rest)[comp.length]? = some r := by
    rw [List.getElem?_append_right (le_refl comp.length)]
    simp
  have hget2 : (List.range n)[comp.length]? = some comp.length := by
    simp [List.getElem?_range hlen]
  rw [h, hget2] at hget
  have hr : comp.length = r := by simpa using hget
  have hcomp : comp = List.range comp.length := by
    have := congrArg (fun l => List.take comp.length l) h
    simpa [List.take_left, List.take_range, Nat.min_eq_left (le_of_lt hlen)] using this
  rw [hcomp, hr]
  exact List.mem_range.mpr ha

lemma mem_insertPV {z x : PVData} : ∀ {l : List PVData}, z ∈ insertPV x l → z = x ∨ z ∈ l := by
  intro l
  induction l with
  | nil => simp [insertPV]
  | cons y ys ih =>
      unfold insertPV
      by_cases hc : y.score ≤ x.score
      · rw [if_pos hc]
        intro hz
        rcases List.mem_cons.mp hz with h | h
        · exact Or.inl h
        · exact Or.inr h
      · rw [if_neg hc]
        intro hz
        rcases List.mem_cons.mp hz with h | h
        · exact Or.inr (h ▸ List.mem_cons_self y ys)
        · rcases ih h with h' | h'
          · exact Or.inl h'
          · exact Or.inr (List.mem_cons_of_mem y h')

lemma pairwise_insertPV {x : PVData} :
    ∀ {l : List PVData}, List.Pairwise (fun a b => b.score ≤ a.score) l →
      List.Pairwise (fun a b => b.score ≤ a.score) (insertPV x l) := by
  intro l
  induction l with
  | nil => intro _; simp [insertPV]
  | cons y ys ih =>
      intro h
      rw [List.pairwise_cons] at h
      obtain ⟨hy, hys⟩ := h
      unfold insertPV
      by_cases hc : y.score ≤ x.score
      · rw [if_pos hc]
        refine List.pairwise_cons.mpr ⟨?_, List.pairwise_cons.mpr ⟨hy, hys⟩⟩
        intro z hz
        rcases List.mem_cons.mp hz with h | h
        · exact h ▸ hc
        · exact le_trans (hy z h) hc
      · rw [if_neg hc]
        refine List.pairwise_cons.mpr ⟨?_, ih hys⟩
        intro z hz
        rcases mem_insertPV hz with h | h
        · exact h ▸ le_of_lt (lt_of_not_le hc)
        · exact hy z h

lemma pairwise_sortByScoreDesc (l : List PVData) :
    List.Pairwise (fun a b => b.score ≤ a.score) (sortByScoreDesc l) := by
  induction l with
  | nil => simp [sortByScoreDesc]
  | cons x xs ih => exact pairwise_insertPV ih

end StockfishEngine

lemma append_sep_inj {α : Type} {s : α} :
    ∀ {a c b d : List α}, s ∉ a → s ∉ c → a ++ s :: b = c ++ s :: d → a = c ∧ b = d := by
  intro a
  induction a with
  | nil =>
      intro c b d _ hc h
      cases c with
      | nil => simpa using h
      | cons y ys =>
          simp only [List.nil_append, List.cons_append, List.cons.injEq] at h
          exact absurd (h.1 ▸ List.mem_cons_self y ys) hc
  | cons x xs ih =>
      intro c b d ha hc h
      cases c with
      | nil =>
          simp only [List.nil_append, List.cons_append, List.cons.injEq] at h
          exact absurd (h.1.symm ▸ List.mem_cons_self x xs) ha
      | cons y ys =>
          simp only [List.cons_append, List.cons.injEq] at h
          have hxs : s ∉ xs := fun hm => ha (List.mem_cons_of_mem x hm)
          have hys : s ∉ ys := fun hm => hc (List.mem_cons_of_mem y hm)
          obtain ⟨h1, h2⟩ := ih hxs hys h.2
          exact ⟨by rw [h.1, h1], h2⟩

lemma sum_filter_pos_of_nonneg :
    ∀ {l : List ℤ}, (∀ x ∈ l, 0 ≤ x) → (l.filter (fun x => decide (0 < x))).sum = l.sum := by
  intro l
  induction l with
  | nil => intro _; simp
  | cons x xs ih =>
      intro h
      have hx : 0 ≤ x := h x (List.mem_cons_self x xs)
      have hxs : ∀ y ∈ xs, 0 ≤ y := fun y hy => h y (List.mem_cons_of_mem x hy)
      by_cases hpos : 0 < x
      · simp [List.filter_cons, hpos, ih hxs]
      · have hx0 : x = 0 := le_antisymm (not_lt.mp hpos) hx
        simp [List.filter_cons, hpos, ih hxs, hx0]

lemma winProb_bounds (cp : ℝ) :
    0 < MoveClassifier.centipawnsToWinProb cp ∧ MoveClassifier.centipawnsToWinProb cp < 100 := by
  unfold MoveClassifier.centipawnsToWinProb
  unfold CONFIG.WIN_PROB.SCALING_FACTOR CONFIG.WIN_PROB.COEFFICIENT
  set e := Real.exp (-(0.00368208 : ℝ) * cp) with he
  have hepos : 0 < e := Real.exp_pos _
  have hd : (1 : ℝ) < 1 + e := by linarith
  have hdpos : (0 : ℝ) < 1 + e := by linarith
  have h1 : 0 < 2 / (1 + e) := by positivity
  have h2 : 2 / (1 + e) < 2 := by
    have := div_lt_div_of_pos_left (by norm_num : (0 : ℝ) < 2) (by norm_num : (0 : ℝ) < 1) hd
    simpa using this
  constructor <;> nlinarith

lemma winProb_mono {x y : ℝ} (h : x ≤ y) :
    MoveClassifier.centipawnsToWinProb x ≤ MoveClassifier.centipawnsToWinProb y := by
  unfold MoveClassifier.centipawnsToWinProb
  unfold CONFIG.WIN_PROB.SCALING_FACTOR CONFIG.WIN_PROB.COEFFICIENT
  have hexp : Real.exp (-(0.00368208 : ℝ) * y) ≤ Real.exp (-(0.00368208 : ℝ) * x) :=
    Real.exp_le_exp.mpr (by nlinarith)
  have hx : (0 : ℝ) < 1 + Real.exp (-(0.00368208 : ℝ) * x) := by positivity
  have hy : (0 : ℝ) < 1 + Real.exp (-(0.00368208 : ℝ) * y) := by positivity
  have hdiv : 2 / (1 + Real.exp (-(0.00368208 : ℝ) * x)) ≤
      2 / (1 + Real.exp (-(0.00368208 : ℝ) * y)) := by
    gcongr
  nlinarith

lemma winProb_zero : MoveClassifier.centipawnsToWinProb 0 = 50 := by
  unfold MoveClassifier.centipawnsToWinProb
  unfold CONFIG.WIN_PROB.SCALING_FACTOR CONFIG.WIN_PROB.COEFFICIENT
  norm_num

lemma fifty_lt_winProb_of_pos {cp : ℝ} (h : 0 < cp) :
    50 < MoveClassifier.centipawnsToWinProb cp := by
  unfold MoveClassifier.centipawnsToWinProb
  unfold CONFIG.WIN_PROB.SCALING_FACTOR CONFIG.WIN_PROB.COEFFICIENT
  have hexp : Real.exp (-(0.00368208 : ℝ) * cp) < 1 :=
    Real.exp_lt_one_iff.mpr (by nlinarith)
  have hepos : 0 < Real.exp (-(0.00368208 : ℝ) * cp) := Real.exp_pos _
  have hdpos : (0 : ℝ) < 1 + Real.exp (-(0.00368208 : ℝ) * cp) := by linarith
  have h1 : (1 : ℝ) < 2 / (1 + Real.exp (-(0.00368208 : ℝ) * cp)) := by
    rw [lt_div_iff₀ hdpos]
    linarith
  nlinarith

lemma jsRound_mono {x y : ℝ} (h : x ≤ y) :
    MoveClassifier.jsRound x ≤ MoveClassifier.jsRound y := by
  unfold MoveClassifier.jsRound
  exact Int.floor_mono (by linarith)

lemma accuracyClamp_mono {u v : ℝ} (h : u ≤ v) :
    max 0 (min 100 ((MoveClassifier.jsRound (u * 10) : ℝ) / 10)) ≤
      max 0 (min 100 ((MoveClassifier.jsRound (v * 10) : ℝ) / 10)) := by
  have hr : MoveClassifier.jsRound (u * 10) ≤ MoveClassifier.jsRound (v * 10) :=
    jsRound_mono (by linarith)
  have hc : ((MoveClassifier.jsRound (u * 10) : ℤ) : ℝ) ≤
      ((MoveClassifier.jsRound (v * 10) : ℤ) : ℝ) := Int.cast_le.mpr hr
  exact max_le_max (le_refl 0) (min_le_min (le_refl 100) (by linarith))

lemma accuracy_arg_mono {a b : ℝ} (ha : 0 ≤ a) (hab : a ≤ b) :
    103.1668 - 3.9114 * Real.log (0.000196 * b * b + 0.0388 * b + 1) ≤
      103.1668 - 3.9114 * Real.log (0.000196 * a * a + 0.0388 * a + 1) := by
  have hqa : (0 : ℝ) < 0.000196 * a * a + 0.0388 * a + 1 := by nlinarith
  have hq : 0.000196 * a * a + 0.0388 * a + 1 ≤ 0.000196 * b * b + 0.0388 * b + 1 := by
    nlinarith
  have hlog := Real.log_le_log hqa hq
  linarith

/-! ## Claim theorems -/

/-- C3 counterexample: `winProbLoss` is not always within `[0, 100]`.
With `evalBefore = 0` and `evalAfter = 100` (an evaluation that improved),
`calculateWinProbLoss 0 100 = P(0) - P(100) = 50 - P(100) < 0`. -/
theorem C3_counterexample : MoveClassifier.calculateWinProbLoss 0 100 < 0 := by
  unfold MoveClassifier.calculateWinProbLoss
  have h1 := winProb_zero
  have h2 := fifty_lt_winProb_of_pos (by norm_num : (0 : ℝ) < 100)
  linarith

/-- C3 (amended): `winProbLoss(x, y) = P(x) - P(y)` with
`P(cp) = 50 + 50 * (2 / (1 + e^(-k*cp)) - 1)`; `winProbLoss(x, x) = 0`;
`winProbLoss` always lies strictly within `(-100, 100)`, and within `[0, 100]`
when `y ≤ x` (the evaluation did not improve). -/
theorem C3_winProbLoss_properties (x y : ℝ) :
    MoveClassifier.calculateWinProbLoss x y =
      MoveClassifier.centipawnsToWinProb x - MoveClassifier.centipawnsToWinProb y ∧
    MoveClassifier.calculateWinProbLoss x x = 0 ∧
    -100 < MoveClassifier.calculateWinProbLoss x y ∧
    MoveClassifier.calculateWinProbLoss x y < 100 ∧
    (y ≤ x → 0 ≤ MoveClassifier.calculateWinProbLoss x y) := by
  obtain ⟨hx0, hx1⟩ := winProb_bounds x
  obtain ⟨hy0, hy1⟩ := winProb_bounds y
  refine ⟨rfl, ?_, ?_, ?_, ?_⟩
  · unfold MoveClassifier.calculateWinProbLoss
    ring
  · unfold MoveClassifier.calculateWinProbLoss
    linarith
  · unfold MoveClassifier.calculateWinProbLoss
    linarith
  · intro h
    have := winProb_mono h
    unfold MoveClassifier.calculateWinProbLoss
    linarith

/-- C3 witness: the nonnegativity clause of `C3_winProbLoss_properties`
applied at `x = 1`, `y = 0`. -/
theorem C3_winProbLoss_properties_witness :
    0 ≤ MoveClassifier.calculateWinProbLoss 1 0 :=
  (C3_winProbLoss_properties 1 0).2.2.2.2 (by norm_num)

/-- C4: `calculateAccuracy 0 = 100`; for positive `acpl` the result is the
clamped, one-decimal-rounded Chess.com formula; `calculateAccuracy` is
monotonically non-increasing on nonnegative `acpl`; and the result always
lies within `[0, 100]`. -/
theorem C4_accuracy_properties :
    MoveClassifier.calculateAccuracy 0 = 100 ∧
    (∀ a : ℝ, 0 < a → MoveClassifier.calculateAccuracy a =
      max 0 (min 100 ((MoveClassifier.jsRound
        ((103.1668 - 3.9114 * Real.log (0.000196 * a * a + 0.0388 * a + 1)) * 10) : ℝ) / 10))) ∧
    (∀ a b : ℝ, 0 ≤ a → a ≤ b →
      MoveClassifier.calculateAccuracy b ≤ MoveClassifier.calculateAccuracy a) ∧
    (∀ a : ℝ, 0 ≤ MoveClassifier.calculateAccuracy a ∧ MoveClassifier.calculateAccuracy a ≤ 100) := by
  have hrange : ∀ a : ℝ, 0 ≤ MoveClassifier.calculateAccuracy a ∧
      MoveClassifier.calculateAccuracy a ≤ 100 := by
    intro a
    unfold MoveClassifier.calculateAccuracy
    by_cases h : a = 0
    · simp [h]
    · simp only [if_neg h]
      constructor
      · exact le_max_left _ _
      · exact max_le (by norm_num) (min_le_left _ _)
  refine ⟨by simp [MoveClassifier.calculateAccuracy], ?_, ?_, hrange⟩
  · intro a ha
    have h : ¬(a = 0) := ne_of_gt ha
    simp only [MoveClassifier.calculateAccuracy, if_neg h]
  · intro a b ha hab
    by_cases h : a = 0
    · have h100 : MoveClassifier.calculateAccuracy a = 100 := by
        simp [MoveClassifier.calculateAccuracy, h]
      rw [h100]
      exact (hrange b).2
    · have ha' : 0 < a := lt_of_le_of_ne ha (Ne.symm h)
      have hb' : 0 < b := lt_of_lt_of_le ha' hab
      have hbne : ¬(b = 0) := ne_of_gt hb'
      simp only [MoveClassifier.calculateAccuracy, if_neg h, if_neg hbne]
      exact accuracyClamp_mono (accuracy_arg_mono ha hab)

/-- C4 witness: the monotone clause of `C4_accuracy_properties` applied at
`a = 0` and `b = 1`. -/
theorem C4_accuracy_properties_witness :
    MoveClassifier.calculateAccuracy 1 ≤ MoveClassifier.calculateAccuracy 0 :=
  C4_accuracy_properties.2.2.1 0 1 (by norm_num) (by norm_num)

/-- C5: `calculateACPL` returns the rounded mean of `max(0, cpLoss)` over the
player's moves (the positive-loss filter in the source drops only zero terms,
so the sum is unchanged), and returns `0` when the player has no moves; with
no moves, the derived accuracy is `100` and every tier count is zero. -/
theorem C5_acpl_aggregation (moves : List AnalyzedMove) (history : List MoveRecord)
    (color : PieceColor) :
    (MoveClassifier.colorMoves moves history color = [] →
      MoveClassifier.calculateACPL moves history color = 0 ∧
      MoveClassifier.countMoveTypes moves history color = MoveClassifier.initCounts ∧
      MoveClassifier.calculateAccuracy (MoveClassifier.calculateACPL moves history color : ℝ) =
        100) ∧
    (∀ m ms, MoveClassifier.colorMoves moves history color = m :: ms →
      MoveClassifier.calculateACPL moves history color =
        MoveClassifier.jsRoundQ
          (((((m :: ms).map (fun mm => max 0 mm.cpLoss) : List ℤ).sum : ℤ) : ℚ) /
            ((m :: ms).length : ℚ))) := by
  constructor
  · intro hcm
    have hacpl : MoveClassifier.calculateACPL moves history color = 0 := by
      simp [MoveClassifier.calculateACPL, hcm]
    refine ⟨hacpl, ?_, ?_⟩
    · simp [MoveClassifier.countMoveTypes, hcm]
    · rw [hacpl]
      simp [MoveClassifier.calculateAccuracy]
  · intro m ms hcm
    have hnn : ∀ x ∈ (m :: ms).map (fun mm => max 0 mm.cpLoss), (0 : ℤ) ≤ x := by
      intro x hx
      obtain ⟨mm, _, rfl⟩ := List.mem_map.mp hx
      exact le_max_left 0 mm.cpLoss
    have hsum := sum_filter_pos_of_nonneg hnn
    simp only [MoveClassifier.calculateACPL, hcm]
    rw [if_neg (by simp)]
    by_cases hl : (((m :: ms).map (fun mm => max 0 mm.cpLoss)).filter
        (fun loss => decide (0 < loss))).length = 0
    · rw [if_pos hl]
      have hemp : ((m :: ms).map (fun mm => max 0 mm.cpLoss)).filter
          (fun loss => decide (0 < loss)) = [] := List.length_eq_zero.mp hl
      rw [hemp] at hsum
      simp only [List.sum_nil] at hsum
      rw [← hsum]
      norm_num [MoveClassifier.jsRoundQ]
    · rw [if_neg hl, hsum]

/-- C5 witness: the zero-moves clause of `C5_acpl_aggregation` applied to an
empty game: ACPL `0`, accuracy `100`, all tier counts zero. -/
theorem C5_acpl_aggregation_witness :
    MoveClassifier.calculateACPL [] [] PieceColor.w = 0 ∧
    MoveClassifier.countMoveTypes [] [] PieceColor.w = MoveClassifier.initCounts ∧
    MoveClassifier.calculateAccuracy (MoveClassifier.calculateACPL [] [] PieceColor.w : ℝ) =
      100 :=
  (C5_acpl_aggregation [] [] PieceColor.w).1 rfl

/-- C10: in `analyzePosition` the endgame test takes precedence over the
opening test: at most 10 total pieces always gives `endgame` (even for a move
index inside the opening window), `opening` is produced exactly when more
than 10 pieces remain and the move index is below 12, and every other board
is `middlegame`. -/
theorem C10_phase_precedence (board : List (List (Option ChessPiece))) (inCheck : Bool)
    (moveIndex : ℕ) :
    ((MoveAnalyzer.analyzePosition board inCheck moveIndex).totalPieces ≤ 10 →
      (MoveAnalyzer.analyzePosition board inCheck moveIndex).phase = PosPhase.endgame) ∧
    ((MoveAnalyzer.analyzePosition board inCheck moveIndex).phase = PosPhase.opening ↔
      10 < (MoveAnalyzer.analyzePosition board inCheck moveIndex).totalPieces ∧
        moveIndex < 12) ∧
    (10 < (MoveAnalyzer.analyzePosition board inCheck moveIndex).totalPieces → 12 ≤ moveIndex →
      (MoveAnalyzer.analyzePosition board inCheck moveIndex).phase = PosPhase.middlegame) := by
  simp only [MoveAnalyzer.analyzePosition]
  split_ifs with h1 h2 <;> simp_all

/-- C10 witness: `C10_phase_precedence` applied to an empty board at move
index 3: the piece count (0 ≤ 10) forces `endgame` although the index is
inside the opening window. -/
theorem C10_phase_precedence_witness :
    (MoveAnalyzer.analyzePosition [] false 3).phase = PosPhase.endgame :=
  (C10_phase_precedence [] false 3).1 (by decide)

/-- C2: `evalBefore` is the engine score of the position before the move and
`evalAfter` the negated engine score of the position after it; both are
negated again for a black mover; `cpLoss = max(0, evalBefore - evalAfter)` is
always nonnegative.  In the spec scenario (white mover, move index 0, scores
`-50` before and `+40` after), `evalBefore = -50`, `evalAfter = -40`,
`cpLoss = 0`, and `classify` returns `book` — the first tier of the
classifier's first-match-wins order, ahead of `best` and far from
`mistake`. -/
theorem C2_perspective_correction (p q : ℤ) (c : PieceColor) :
    MoveAnalyzer.perspectiveEvals p q PieceColor.w = (p, -q) ∧
    MoveAnalyzer.perspectiveEvals p q PieceColor.b = (-p, q) ∧
    MoveAnalyzer.cpLossOf p q c =
      max 0 ((MoveAnalyzer.perspectiveEvals p q c).1 - (MoveAnalyzer.perspectiveEvals p q c).2) ∧
    0 ≤ MoveAnalyzer.cpLossOf p q c ∧
    MoveAnalyzer.perspectiveEvals (-50) 40 PieceColor.w = (-50, -40) ∧
    MoveAnalyzer.cpLossOf (-50) 40 PieceColor.w = 0 ∧
    (∀ (fSq tSq : List Char) (promo : Option Char) (captured : Option PieceKind)
        (alts : List AltLine) (matLoss : ℤ) (wasBest : Bool)
        (pos : Option PositionInfo) (tact : Option TacticalInfo),
      MoveClassifier.classify
        { moveIndex := 0
          cpLoss := MoveAnalyzer.cpLossOf (-50) 40 PieceColor.w
          move := ⟨fSq, tSq, promo, PieceColor.w, captured⟩
          alternatives := alts
          evalBefore := -50
          evalAfter := -40
          materialLoss := matLoss
          wasBestMove := wasBest
          position := pos
          tactical := tact } = Tier.book ∧
      MoveClassifier.classify
        { moveIndex := 0
          cpLoss := MoveAnalyzer.cpLossOf (-50) 40 PieceColor.w
          move := ⟨fSq, tSq, promo, PieceColor.w, captured⟩
          alternatives := alts
          evalBefore := -50
          evalAfter := -40
          materialLoss := matLoss
          wasBestMove := wasBest
          position := pos
          tactical := tact } ≠ Tier.mistake) := by
  refine ⟨by simp [MoveAnalyzer.perspectiveEvals], by simp [MoveAnalyzer.perspectiveEvals],
    rfl, le_max_left _ _, by decide, by decide, ?_⟩
  intro fSq tSq promo captured alts matLoss wasBest pos tact
  have hphase : MoveClassifier.detectGamePhase 0 pos = PhaseKey.OPENING := by
    simp [MoveClassifier.detectGamePhase, CONFIG.OPENING_BOOK_MOVES]
  have hbook : MoveClassifier.classify
      { moveIndex := 0
        cpLoss := MoveAnalyzer.cpLossOf (-50) 40 PieceColor.w
        move := ⟨fSq, tSq, promo, PieceColor.w, captured⟩
        alternatives := alts
        evalBefore := -50
        evalAfter := -40
        materialLoss := matLoss
        wasBestMove := wasBest
        position := pos
        tactical := tact } = Tier.book := by
    simp only [MoveClassifier.classify]
    rw [if_pos]
    exact ⟨hphase, by norm_num, by decide⟩
  exact ⟨hbook, by rw [hbook]; decide⟩

/-- The C1 scenario record: outside the book window (move index 20), material
loss 900 (a captured queen), `cpLoss = 0`, two alternatives scored 120 and
-10 (gap 130), computed complexity 55, evaluation gain 200 and swing 200 for
the white mover, position not already decisive. -/
def brilliantScenario : MoveData :=
  { moveIndex := 20
    cpLoss := 0
    move := { fromSq := ['d', '5'], toSq := ['e', '6'], promotion := none,
              color := PieceColor.w, captured := some PieceKind.q }
    alternatives := [⟨120, "d5e6"⟩, ⟨-10, "a2a3"⟩]
    evalBefore := 0
    evalAfter := 200
    materialLoss := 900
    wasBestMove := false
    position := none
    tactical := some ⟨19⟩ }

/-- C1 counterexample: the scenario record (complexity is indeed 55) is
classified `best`, not `brilliant` — criterion 2 of `isBrilliant` requires
`cpLoss ≤ MAX_CP_LOSS = -20`, which `cpLoss = 0` fails. -/
theorem C1_counterexample :
    MoveClassifier.calculateComplexity brilliantScenario.position
      brilliantScenario.alternatives brilliantScenario.tactical = 55 ∧
    MoveClassifier.classify brilliantScenario = Tier.best ∧
    MoveClassifier.classify brilliantScenario ≠ Tier.brilliant := by
  have hbest : MoveClassifier.classify brilliantScenario = Tier.best := by
    simp only [MoveClassifier.classify]
    rw [if_neg (by decide), if_neg (by decide), if_pos (by decide)]
  exact ⟨by decide, hbest, by rw [hbest]; decide⟩

/-- C1 (amended): a record that is outside the book test and satisfies every
criterion of `isBrilliant` — including the actual cpLoss criterion
`cpLoss ≤ CONFIG.CLASSIFICATION.BRILLIANT.MAX_CP_LOSS` (that is,
`cpLoss ≤ -20`, not merely `cpLoss ≤ 0`) — is classified `brilliant`. -/
theorem C1_brilliant_criteria (d : MoveData)
    (hbook : ¬(MoveClassifier.detectGamePhase d.moveIndex d.position = PhaseKey.OPENING ∧
      d.moveIndex < 10 ∧ |d.cpLoss| < 25))
    (hsac : CONFIG.BRILLIANT.MIN_SACRIFICE ≤ d.materialLoss)
    (hcp : d.cpLoss ≤ CONFIG.BRILLIANT.MAX_CP_LOSS)
    (hgain : CONFIG.BRILLIANT.MIN_EVAL_GAIN ≤
      MoveClassifier.evalGainOf d.move d.evalBefore d.evalAfter)
    (huniq : ∀ a b rest, d.alternatives = a :: b :: rest →
      CONFIG.BRILLIANT.UNIQUENESS_GAP ≤ |a.score - b.score|)
    (hcx : CONFIG.BRILLIANT.MIN_COMPLEXITY ≤
      MoveClassifier.calculateComplexity d.position d.alternatives d.tactical)
    (hswing : CONFIG.BRILLIANT.MIN_EVAL_SWING ≤ |d.evalAfter - d.evalBefore|)
    (hdecisive : ¬(500 < |d.evalBefore| ∧
      MoveClassifier.evalGainOf d.move d.evalBefore d.evalAfter < 100)) :
    MoveClassifier.classify d = Tier.brilliant := by
  have hu : MoveClassifier.uniquenessFails d.alternatives = false := by
    cases halts : d.alternatives with
    | nil => rfl
    | cons a tl =>
        cases tl with
        | nil => rfl
        | cons b rest =>
            have hg := huniq a b rest halts
            simp only [MoveClassifier.uniquenessFails, decide_eq_false_iff_not]
            exact not_lt.mpr hg
  have hu' : ¬(MoveClassifier.uniquenessFails d.alternatives = true) := by simp [hu]
  have hbril : MoveClassifier.isBrilliant d
      (MoveClassifier.calculateComplexity d.position d.alternatives d.tactical) = true := by
    simp only [MoveClassifier.isBrilliant]
    rw [if_neg (not_lt.mpr hsac), if_neg (not_lt.mpr hcp), if_neg (not_lt.mpr hgain),
      if_neg hu', if_neg (not_lt.mpr hcx), if_neg (not_lt.mpr hswing), if_neg hdecisive]
  simp only [MoveClassifier.classify]
  rw [if_neg hbook, if_pos hbril]

/-- A record meeting every brilliant criterion of the code: sacrifice 900,
`cpLoss = -30 ≤ -20`, evaluation gain 150, alternative gap 130, computed
complexity 55, swing 150, not already decisive. -/
def brilliantQualifying : MoveData :=
  { moveIndex := 20
    cpLoss := -30
    move := { fromSq := ['d', '5'], toSq := ['e', '6'], promotion := none,
              color := PieceColor.w, captured := some PieceKind.q }
    alternatives := [⟨120, "d5e6"⟩, ⟨-10, "a2a3"⟩]
    evalBefore := 10
    evalAfter := 160
    materialLoss := 900
    wasBestMove := false
    position := none
    tactical := some ⟨19⟩ }

/-- C1 witness: `C1_brilliant_criteria` applied to `brilliantQualifying`. -/
theorem C1_brilliant_criteria_witness :
    MoveClassifier.classify brilliantQualifying = Tier.brilliant :=
  C1_brilliant_criteria brilliantQualifying (by decide) (by decide) (by decide) (by decide)
    (by intro a b rest h; cases h; decide) (by decide) (by decide) (by decide)

/-- C6 counterexample: the cache key of `src/js/moveAnalyzer.js` omits the
promotion piece, so two distinct moves from the same base position — an
under-promotion to a knight versus a promotion to a queen — share one cache
entry. -/
theorem C6_counterexample :
    (⟨['e', '7'], ['e', '8'], some 'q', PieceColor.w, none⟩ : MoveRecord) ≠
      (⟨['e', '7'], ['e', '8'], some 'n', PieceColor.w, none⟩ : MoveRecord) ∧
    MoveAnalyzer.cacheKeySequential "8/4P3/8/8/8/8/8/k6K w - - 0 1".toList
        ⟨['e', '7'], ['e', '8'], some 'q', PieceColor.w, none⟩ =
      MoveAnalyzer.cacheKeySequential "8/4P3/8/8/8/8/8/k6K w - - 0 1".toList
        ⟨['e', '7'], ['e', '8'], some 'n', PieceColor.w, none⟩ := by
  constructor
  · decide
  · rfl

/-- C6 (amended): the part_006 cache key — which does append the promotion
piece — is injective: whenever a FEN contains no underscore (true of the FEN
grammar) and the origin/destination squares are two characters (true of
algebraic square names), equal keys force equal base positions and equal move
descriptors including the promotion piece.  The `src/js/moveAnalyzer.js`
revision omits the promotion piece and loses this property
(`C6_counterexample`). -/
theorem C6_cacheKey_injective (fen1 fen2 : List Char) (m1 m2 : MoveRecord)
    (hf1 : '_' ∉ fen1) (hf2 : '_' ∉ fen2)
    (hfrom1 : m1.fromSq.length = 2) (hfrom2 : m2.fromSq.length = 2)
    (hto1 : m1.toSq.length = 2) (hto2 : m2.toSq.length = 2)
    (hkey : MoveAnalyzer.cacheKey fen1 m1 = MoveAnalyzer.cacheKey fen2 m2) :
    fen1 = fen2 ∧ m1.fromSq = m2.fromSq ∧ m1.toSq = m2.toSq ∧
      m1.promotion = m2.promotion := by
  unfold MoveAnalyzer.cacheKey at hkey
  obtain ⟨hfen, hrest⟩ := append_sep_inj hf1 hf2 hkey
  obtain ⟨hft, hpromo⟩ := List.append_inj hrest (by rw [List.length_append, List.length_append, hfrom1, hfrom2, hto1, hto2])
  obtain ⟨hfrom, hto⟩ := List.append_inj hft (by rw [hfrom1, hfrom2])
  refine ⟨hfen, hfrom, hto, ?_⟩
  cases hp1 : m1.promotion with
  | none =>
      cases hp2 : m2.promotion with
      | none => rfl
      | some c2 =>
          rw [hp1, hp2] at hpromo
          simp [Option.elim] at hpromo
  | some c1 =>
      cases hp2 : m2.promotion with
      | none =>
          rw [hp1, hp2] at hpromo
          simp [Option.elim] at hpromo
      | some c2 =>
          rw [hp1, hp2] at hpromo
          simp only [Option.elim] at hpromo
          rw [List.cons.injEq] at hpromo
          rw [hpromo.1]

/-- C6 witness: `C6_cacheKey_injective` applied to two equal keys built from
a concrete FEN (underscore-free) and a concrete promotion move. -/
theorem C6_cacheKey_injective_witness :
    "8/4P3/8/8/8/8/8/k6K w - - 0 1".toList = "8/4P3/8/8/8/8/8/k6K w - - 0 1".toList ∧
    (⟨['e', '7'], ['e', '8'], some 'q', PieceColor.w, none⟩ : MoveRecord).fromSq =
      (⟨['e', '7'], ['e', '8'], some 'q', PieceColor.w, none⟩ : MoveRecord).fromSq ∧
    (⟨['e', '7'], ['e', '8'], some 'q', PieceColor.w, none⟩ : MoveRecord).toSq =
      (⟨['e', '7'], ['e', '8'], some 'q', PieceColor.w, none⟩ : MoveRecord).toSq ∧
    (⟨['e', '7'], ['e', '8'], some 'q', PieceColor.w, none⟩ : MoveRecord).promotion =
      (⟨['e', '7'], ['e', '8'], some 'q', PieceColor.w, none⟩ : MoveRecord).promotion :=
  C6_cacheKey_injective _ _ _ _ (by decide) (by decide) (by decide) (by decide)
    (by decide) (by decide) rfl

/-- C7 counterexample: with two tied PV lines carrying the same move, the
Multi-PV alternatives are neither strictly descending nor duplicate-free, and
the `runAnalysis` revision returns `pvResults` entries unsorted (here in
ascending score order) and including the primary line. -/
theorem C7_counterexample :
    ¬ List.Pairwise (fun a b : StockfishEngine.PVData => b.score < a.score)
        (StockfishEngine.multiPVAlternatives
          [⟨100, some "e2e4"⟩, ⟨50, some "d2d4"⟩, ⟨50, some "d2d4"⟩]) ∧
    ¬ (StockfishEngine.multiPVAlternatives
        [⟨100, some "e2e4"⟩, ⟨50, some "d2d4"⟩, ⟨50, some "d2d4"⟩]).Nodup ∧
    StockfishEngine.runAnalysisAlternatives
        [⟨some 10, some "e2e4"⟩, ⟨some 50, some "d2d4"⟩] =
      [⟨some 10, some "e2e4"⟩, ⟨some 50, some "d2d4"⟩] := by
  refine ⟨by decide, by decide, rfl⟩

/-- C7 (amended): the alternatives produced by `analyzeMultiPV` are sorted by
non-increasing score (the comparator `(a, b) => b.score - a.score`); equal
scores and duplicate moves are not prevented, and the `runAnalysis` revision
does not sort at all (`C7_counterexample`). -/
theorem C7_alternatives_sorted (pvData : List StockfishEngine.PVData) :
    List.Pairwise (fun a b => b.score ≤ a.score)
      (StockfishEngine.multiPVAlternatives pvData) := by
  unfold StockfishEngine.multiPVAlternatives StockfishEngine.sortedPVsOf
  exact List.Pairwise.sublist (List.tail_sublist _)
    (StockfishEngine.pairwise_sortByScoreDesc _)

/-- C8: in every reachable session state at most one request is in flight,
the busy flag is set exactly while one is, and service is strictly FIFO: when
the head request `r` of the queue is about to be dequeued (busy flag clear),
every request enqueued before `r` (ids are handed out in arrival order) has
already completed — so its protocol exchange resolved or rejected before the
later request's exchange begins. -/
theorem C8_queue_serialization (s : StockfishEngine.EngineState)
    (hs : StockfishEngine.ReachableEngine s) :
    s.inFlight.length ≤ 1 ∧
    (s.busy = false ↔ s.inFlight = []) ∧
    (∀ r rest, s.queue = r :: rest → s.busy = false →
      ∀ a, a < r → a ∈ s.completed) := by
  obtain ⟨hbusy, hlen, horder⟩ := StockfishEngine.engineInv_reachable hs
  refine ⟨hlen, hbusy, ?_⟩
  intro r rest hq hb a ha
  have hf : s.inFlight = [] := hbusy.mp hb
  rw [hf, hq] at horder
  simp only [List.append_nil] at horder
  exact StockfishEngine.range_decomp_head horder a ha

/-- C8 witness: `C8_queue_serialization` applied to the state reached by
worker creation, the ready acknowledgement, one enqueue, one dequeue, and one
completion, followed by a second enqueue. -/
theorem C8_queue_serialization_witness :
    (⟨true, true, false, [1], [], [0], 2⟩ : StockfishEngine.EngineState).inFlight.length ≤ 1 ∧
    ((⟨true, true, false, [1], [], [0], 2⟩ : StockfishEngine.EngineState).busy = false ↔
      (⟨true, true, false, [1], [], [0], 2⟩ : StockfishEngine.EngineState).inFlight = []) := by
  have h1 : StockfishEngine.ReachableEngine ⟨true, false, false, [], [], [], 0⟩ :=
    Relation.ReflTransGen.single
      (StockfishEngine.EngineStep.workerUp StockfishEngine.initEngineState)
  have h2 : StockfishEngine.ReachableEngine ⟨true, true, false, [], [], [], 0⟩ :=
    Relation.ReflTransGen.tail h1 (StockfishEngine.EngineStep.readyOk _)
  have h3 : StockfishEngine.ReachableEngine ⟨true, true, false, [0], [], [], 1⟩ :=
    Relation.ReflTransGen.tail h2 (StockfishEngine.EngineStep.enqueue _ rfl)
  have h4 : StockfishEngine.ReachableEngine ⟨true, true, true, [], [0], [], 1⟩ :=
    Relation.ReflTransGen.tail h3 (StockfishEngine.EngineStep.start _ 0 [] rfl rfl)
  have h5 : StockfishEngine.ReachableEngine ⟨true, true, false, [], [], [0], 1⟩ :=
    Relation.ReflTransGen.tail h4 (StockfishEngine.EngineStep.complete _ 0 rfl)
  have h6 : StockfishEngine.ReachableEngine ⟨true, true, false, [1], [], [0], 2⟩ :=
    Relation.ReflTransGen.tail h5 (StockfishEngine.EngineStep.enqueue _ rfl)
  have h := C8_queue_serialization _ h6
  exact ⟨h.1, h.2.1⟩

/-- C9: an `analyze` call issued while the worker is missing or the engine
has not acknowledged readiness is rejected immediately with the
`'Engine not ready'` failure, leaves the session state — in particular the
queue — unchanged, and enqueues nothing. -/
theorem C9_not_ready_rejected (s : StockfishEngine.EngineState)
    (h : s.hasWorker = false ∨ s.ready = false) :
    (StockfishEngine.analyze s).1 = Except.error "Engine not ready" ∧
    (StockfishEngine.analyze s).2 = s ∧
    (StockfishEngine.analyze s).2.queue = s.queue := by
  unfold StockfishEngine.analyze
  rw [if_pos h]
  exact ⟨rfl, rfl, rfl⟩

/-- C9 witness: `C9_not_ready_rejected` applied to the uninitialized state. -/
theorem C9_not_ready_rejected_witness :
    (StockfishEngine.analyze StockfishEngine.initEngineState).1 =
      Except.error "Engine not ready" ∧
    (StockfishEngine.analyze StockfishEngine.initEngineState).2 =
      StockfishEngine.initEngineState ∧
    (StockfishEngine.analyze StockfishEngine.initEngineState).2.queue =
      StockfishEngine.initEngineState.queue :=
  C9_not_ready_rejected StockfishEngine.initEngineState (Or.inl rfl)
